import Mathlib

/-!
# Verification of the LemurAI meeting-intelligence core

Shallow embedding of the meeting-recording / content-generation pipeline of
the `backend_clean` package:

* `app/core/recall_service.py`  — recording-job client (`RecallAIBot`)
* `app/core/meeting_intelligence.py` — meeting session orchestrator
* `app/core/file_processor.py`  — `chunk_text`
* `app/core/vector_store.py`    — knowledge-store scoping

Python/JSON values are modelled by the inductive `JVal` (`jnull` plays the
role of Python `None`); Python truthiness is `JVal.truthy`.  Operations that
may raise in Python (attribute errors on non-dict values, bad indexing) are
modelled with `Option`: `none` stands for the exception path, which every
embedded function's enclosing `try/except` converts into the function's
error result.
-/

set_option maxRecDepth 10000

namespace LemurAI

/-- A JSON-ish Python value as it appears in provider responses. -/
inductive JVal where
  | jnull
  | jstr (s : String)
  | jobj (fields : List (String × JVal))
  | jarr (items : List JVal)
deriving Repr

namespace JVal

/-- Python truthiness of a value (`None`, `""`, `{}`, `[]` are falsy). -/
def truthy : JVal → Bool
  | jnull => false
  | jstr s => !(s == "")
  | jobj fields => !fields.isEmpty
  | jarr items => !items.isEmpty

end JVal

open JVal

/-- `d.get(k, default)` on a Python dict, where the receiver may not be a
dict: `none` models the `AttributeError` raised in that case. -/
def pyGet (v : JVal) (k : String) (default : JVal) : Option JVal :=
  match v with
  | .jobj fields => some ((List.lookup k fields).getD default)
  | _ => none

/-- `k in v` for the container types Python's `in` accepts; `none` models the
`TypeError` raised on unsupported receivers. -/
def pyContainsKey (v : JVal) (k : String) : Option Bool :=
  match v with
  | .jobj fields => some (fields.any (fun f => f.1 == k))
  | .jarr items =>
      some (items.any (fun x => match x with | .jstr s => s == k | _ => false))
  | .jstr s => some (decide ((s.splitOn k).length > 1))
  | _ => none

/-- Truthiness of an `Option String` holding a Python string-or-None. -/
def truthyStr : Option String → Bool
  | some s => !(s == "")
  | none => false

/-! ## Recording-job client (`recall_service.py`, class `RecallAIBot`) -/

/-- The mutable instance state of `RecallAIBot`: `self.bot_id` and the raw
data cache `self.bot_data`. -/
structure BotClient where
  bot_id : Option String
  bot_data : Option JVal
deriving Repr

/-- The `bot_id = bot_id or self.bot_id; if not bot_id: return error`
pattern shared by the client's methods.  `none` means the error dict is
returned. -/
def resolveBotId (st : BotClient) (bidArg : Option String) : Option String :=
  let bid := if truthyStr bidArg then bidArg else st.bot_id
  if truthyStr bid then bid else none

/-- Status derivation of `get_bot_status` (lines 140-151): the last
status-change entry's `code` (default `"unknown"`), and when the history is
empty, `"done"` if recordings are present else `"waiting_to_join"`.
`none` models the exception raised when the last entry is not a dict. -/
def getBotStatusCode (status_changes : List JVal) (recordings : List JVal) :
    Option JVal :=
  match status_changes.getLast? with
  | some (.jobj fields) => some ((List.lookup "code" fields).getD (.jstr "unknown"))
  | some _ => none
  | none =>
      if recordings.isEmpty then some (.jstr "waiting_to_join")
      else some (.jstr "done")

/-- `get_bot_data(bot_id, force_refresh)`: returns the cached `self.bot_data`
when it is truthy and no refresh is forced, otherwise fetches (the HTTP GET is
abstracted as `fetch`) and caches.  First component `none` is the
`success: False` result. -/
def getBotData (st : BotClient) (bidArg : Option String) (force : Bool)
    (fetch : String → Option JVal) : Option JVal × BotClient :=
  match resolveBotId st bidArg with
  | none => (none, st)
  | some b =>
    let doFetch : Option JVal × BotClient :=
      match fetch b with
      | some d => (some d, { st with bot_data := some d })
      | none => (none, st)
    match st.bot_data with
    | some cached => if cached.truthy && !force then (some cached, st) else doFetch
    | none => doFetch

/-- `extract_download_urls(bot_data)`: the `(video_url, transcript_url)` pair
drawn from the first recording's media shortcuts; `none` models a raised
exception (caught by the caller `get_download_urls`). -/
def extractDownloadUrls (bot_data : JVal) : Option (JVal × JVal) :=
  match pyGet bot_data "recordings" (.jarr []) with
  | none => none
  | some recordings =>
    if !recordings.truthy then some (.jnull, .jnull)
    else
      match recordings with
      | .jarr (recording :: _) =>
        match pyGet recording "media_shortcuts" (.jobj []) with
        | none => none
        | some ms =>
          match pyContainsKey ms "video_mixed" with
          | none => none
          | some hasV =>
            let videoStep : Option JVal :=
              if hasV then
                match ms with
                | .jobj msf =>
                  match List.lookup "video_mixed" msf with
                  | some vm =>
                    match pyGet vm "data" (.jobj []) with
                    | none => none
                    | some data => pyGet data "download_url" .jnull
                  | none => none
                | _ => none
              else some .jnull
            match videoStep with
            | none => none
            | some video_url =>
              match pyContainsKey ms "transcript" with
              | none => none
              | some hasT =>
                let transcriptStep : Option JVal :=
                  if hasT then
                    match ms with
                    | .jobj msf =>
                      match List.lookup "transcript" msf with
                      | some tv =>
                        match pyGet tv "data" (.jobj []) with
                        | none => none
                        | some data => pyGet data "download_url" .jnull
                      | none => none
                    | _ => none
                  else some .jnull
                match transcriptStep with
                | none => none
                | some transcript_url => some (video_url, transcript_url)
      | _ => none

/-- The `status_changes[-1].get("code", "unknown") if status_changes else
"unknown"` expression of `get_download_urls`. -/
def currentStatusOf (bot_data : JVal) : Option JVal :=
  match pyGet bot_data "status_changes" (.jarr []) with
  | none => none
  | some sc =>
    if sc.truthy then
      match sc with
      | .jarr items =>
        match items.getLast? with
        | some (.jobj fields) =>
            some ((List.lookup "code" fields).getD (.jstr "unknown"))
        | _ => none
      | _ => none
    else some (.jstr "unknown")

/-- The success payload of `get_download_urls`. -/
structure DlResult where
  bot_id : String
  video_url : JVal
  audio_url : JVal
  transcript_url : JVal
  chat_messages_url : JVal
  status : JVal
  data : JVal
deriving Repr

/-- `get_download_urls(bot_id)`: always fetches fresh bot data
(`force_refresh=True`), extracts the URLs, and builds the result dict with
`audio_url` set to the video URL and `chat_messages_url` set to `None`. -/
def getDownloadUrls (st : BotClient) (bidArg : Option String)
    (fetch : String → Option JVal) : Option DlResult × BotClient :=
  match resolveBotId st bidArg with
  | none => (none, st)
  | some b =>
    match getBotData st (some b) true fetch with
    | (none, st') => (none, st')
    | (some bot_data, st') =>
      match extractDownloadUrls bot_data with
      | none => (none, st')
      | some (video_url, transcript_url) =>
        match currentStatusOf bot_data with
        | none => (none, st')
        | some status =>
          (some { bot_id := b
                  video_url := video_url
                  audio_url := video_url
                  transcript_url := transcript_url
                  chat_messages_url := .jnull
                  status := status
                  data := bot_data }, st')

/-! ## Meeting session orchestrator (`meeting_intelligence.py`) -/

/-- The per-meeting entry of `active_meetings` (the fields the state machine
and the processing routine touch). -/
structure MeetingData where
  status : JVal
  processed : Bool
  processed_at : Option Nat
  attendees : List String
deriving Repr

/-- `status in ["done", "completed", "finished"]` from the monitor loop. -/
def doneStatus : JVal → Bool
  | .jstr s => s == "done" || s == "completed" || s == "finished"
  | _ => false

/-- `status in ["failed", "error"]` from the monitor loop. -/
def failStatus : JVal → Bool
  | .jstr s => s == "failed" || s == "error"
  | _ => false

/-- One run of `_monitor_meeting_completion`'s polling loop over a finite
trace of poll outcomes (`none` = a poll whose result had `success: False`,
`some s` = a successful poll reporting raw status `s`).  Returns the meeting
data after the loop consumed the trace, and `true` iff the loop exited on a
terminal status (`break`). -/
def runMonitor (md : MeetingData) : List (Option JVal) → MeetingData × Bool
  | [] => (md, false)
  | none :: rest => runMonitor md rest
  | some s :: rest =>
    let md1 := { md with status := s }
    if doneStatus s then (md1, true)
    else if failStatus s then ({ md1 with status := .jstr "failed" }, true)
    else runMonitor md1 rest

/-- One step of `_extract_transcript_from_bot_data`'s scan for a single
recording.  `none` = a raised exception (the enclosing `except` then makes
the whole extraction return `None`); `some none` = nothing found in this
recording, continue; `some (some v)` = the truthy value returned. -/
def scanRecording (r : JVal) : Option (Option JVal) :=
  match r with
  | .jobj fields =>
    let msCheck : Option (Option JVal) :=
      let ms := (List.lookup "media_shortcuts" fields).getD (.jobj [])
      match pyContainsKey ms "transcript" with
      | none => none
      | some false => some none
      | some true =>
        match ms with
        | .jobj msf =>
          match List.lookup "transcript" msf with
          | some (.jobj tif) =>
            match (List.lookup "data" tif).getD (.jobj []) with
            | .jobj df =>
              let t := (List.lookup "text" df).getD .jnull
              let c := (List.lookup "content" df).getD .jnull
              let tc := if t.truthy then t else c
              if tc.truthy then some (some tc) else some none
            | _ => none
          | some _ => some none
          | none => some none
        | _ => none
    let td := (List.lookup "transcript" fields).getD .jnull
    if td.truthy then
      match td with
      | .jstr s => some (some (.jstr s))
      | .jobj tf =>
        let t := (List.lookup "text" tf).getD .jnull
        let c := (List.lookup "content" tf).getD .jnull
        let text_content := if t.truthy then t else c
        if text_content.truthy then some (some text_content) else msCheck
      | _ => msCheck
    else msCheck
  | _ => none

/-- The `for recording in recordings` loop of
`_extract_transcript_from_bot_data`. -/
def scanRecordings : List JVal → Option (Option JVal)
  | [] => some none
  | r :: rest =>
    match scanRecording r with
    | none => none
    | some (some v) => some (some v)
    | some none => scanRecordings rest

/-- `_extract_transcript_from_bot_data(bot_data)`: scan each recording for an
embedded transcript — first the recording's `transcript` field (a string, or
a dict's truthy `text` else `content` entry), then the `media_shortcuts`
transcript data — returning the first truthy hit; any exception, or no hit,
yields `None`. -/
def extractTranscriptFromBotData (bot_data : JVal) : Option JVal :=
  match pyGet bot_data "recordings" (.jarr []) with
  | some (.jarr items) =>
    match scanRecordings items with
    | some (some v) => some v
    | _ => none
  | _ => none

/-- Transcript acquisition of `_process_completed_meeting` (lines 184-204):
when a truthy transcript URL is present, only the direct download is tried
(`_download_transcript`, abstracted as `download`; a falsy body counts as
failure); only when no truthy URL exists is the embedded-transcript fallback
consulted. -/
def acquireTranscript (transcript_url : JVal) (download : JVal → Option String)
    (bot_data : JVal) : Option JVal :=
  if transcript_url.truthy then
    match download transcript_url with
    | some t => if t == "" then none else some (.jstr t)
    | none => none
  else
    extractTranscriptFromBotData bot_data

/-- The three artifact kinds of `_generate_meeting_ai_content`. -/
inductive Kind where
  | summary
  | action_items
  | follow_up_email
deriving Repr, DecidableEq

/-- Outcome of one `generate_*` call (`ai_service.generate_content` never
raises: it returns a dict with a `success` flag). -/
structure GenResult where
  success : Bool
  content : String
deriving Repr, DecidableEq

/-- `_generate_meeting_ai_content`: summary and action items are always
requested; the follow-up email only under `if attendees:`.  The completion
provider is abstracted as the oracle `gen`.  The result mirrors the
`results` dict in insertion order. -/
def generateMeetingAIContent (attendees : List String) (gen : Kind → GenResult) :
    List (Kind × GenResult) :=
  [(Kind.summary, gen Kind.summary), (Kind.action_items, gen Kind.action_items)]
    ++ (if attendees.isEmpty then [] else [(Kind.follow_up_email, gen Kind.follow_up_email)])

/-- Which storage path persisted an artifact. -/
inductive Tier where
  | primary
  | direct
deriving Repr, DecidableEq

/-- `_store_meeting_results`: for each successful generation, try
`db_manager.create_output` (success abstracted as `primaryOk`), falling back
to `_store_output_direct` (`directOk`); a kind whose both attempts fail
produces no record, and each kind is handled independently. -/
def storeMeetingResults (results : List (Kind × GenResult))
    (primaryOk directOk : Kind → Bool) : List (Kind × Tier) :=
  results.filterMap fun kr =>
    if kr.2.success then
      if primaryOk kr.1 then some (kr.1, Tier.primary)
      else if directOk kr.1 then some (kr.1, Tier.direct)
      else none
    else none

/-- `_process_completed_meeting` after the monitor hand-off: abort (leaving
the session untouched and storing nothing) when the download-URLs call
failed or transcript acquisition yields nothing; otherwise generate the
artifacts, store them, and mark the session `processed` with `processed_at`
set.  Knowledge-base context retrieval (`_get_client_context`) never raises
and only contributes prompt text, which the `gen` oracle absorbs. -/
def processCompletedMeeting (md : MeetingData) (downloadResult : Option DlResult)
    (download : JVal → Option String) (gen : Kind → GenResult)
    (primaryOk directOk : Kind → Bool) (now : Nat) :
    MeetingData × List (Kind × Tier) :=
  match downloadResult with
  | none => (md, [])
  | some dl =>
    match acquireTranscript dl.transcript_url download dl.data with
    | none => (md, [])
    | some _ =>
      let ai := generateMeetingAIContent md.attendees gen
      let stored := storeMeetingResults ai primaryOk directOk
      ({ md with processed := true, processed_at := some now }, stored)

/-! ## Text chunking (`file_processor.py`, `chunk_text`)

Python strings are modelled as `List Char`; `chunk_text` is embedded at its
only used parameters (`chunk_size = 1000`, `overlap = 200`).  The loop is
written with a fuel parameter to stay structurally recursive; `text.length`
units of fuel are provably more than enough, since each iteration advances
`start` by at least 701 characters. -/

/-- The characters removed by Python's `str.strip()`: the Unicode
whitespace set of CPython's `str.isspace()` — U+0009-U+000D, U+001C-U+0020,
U+0085, U+00A0, U+1680, U+2000-U+200A, U+2028, U+2029, U+202F, U+205F and
U+3000. -/
def isPySpace (c : Char) : Bool :=
  let n := c.toNat
  (decide (0x09 ≤ n) && decide (n ≤ 0x0D)) ||
  (decide (0x1C ≤ n) && decide (n ≤ 0x20)) ||
  n == 0x85 || n == 0xA0 || n == 0x1680 ||
  (decide (0x2000 ≤ n) && decide (n ≤ 0x200A)) ||
  n == 0x2028 || n == 0x2029 || n == 0x202F || n == 0x205F || n == 0x3000

/-- `s.strip()` on a Python string. -/
def pyStrip (s : List Char) : List Char :=
  ((s.dropWhile isPySpace).reverse.dropWhile isPySpace).reverse

/-- `text.rfind('.', lo, hi)`: the largest index `i` with `lo ≤ i < hi`
(clamped to the text length) holding a period, if any. -/
def rfindDot (text : List Char) (lo hi : Nat) : Option Nat :=
  ((List.range (min hi text.length)).filter
    (fun i => decide (lo ≤ i) && (text.getD i ' ' == '.'))).getLast?

/-- The window end for a window starting at `start`: `start + 1000`, shrunk
to just past the last period found in the window's final 100 characters when
the window does not already reach the end of the text. -/
def chunkEnd (text : List Char) (start : Nat) : Nat :=
  if start + 1000 < text.length then
    match rfindDot text (start + 900) (start + 1000) with
    | some se => if start < se then se + 1 else start + 1000
    | none => start + 1000
  else start + 1000

/-- The `while start < len(text)` loop of `chunk_text`: take the window
`text[start:end]`, strip it, keep it when non-empty, and continue from
`end - 200`. -/
def chunkTextAux (text : List Char) : Nat → Nat → List (List Char)
  | 0, _ => []
  | fuel + 1, start =>
    if start < text.length then
      let e := chunkEnd text start
      let chunk := pyStrip ((text.drop start).take (e - start))
      let rest := chunkTextAux text fuel (e - 200)
      if chunk.isEmpty then rest else chunk :: rest
    else []

/-- `chunk_text(text)` with the reference parameters 1000/200: empty input
gives no chunks, input shorter than one window is returned whole, longer
input is chunked by the loop. -/
def chunkText (text : List Char) : List (List Char) :=
  if text.isEmpty then []
  else if text.length < 1000 then [text]
  else chunkTextAux text text.length 0

/-- Total number of characters over a list of chunks. -/
def sumLen (chunks : List (List Char)) : Nat :=
  (chunks.map List.length).sum

/-! ## Knowledge-store scoping (`vector_store.py`)

The ChromaDB client is modelled as a flat list of
`(collection name, document)` pairs; a per-collection query can only ever
return documents of that collection, so `searchKnowledgeBase` here returns
all of them (a superset of any top-`k` answer). -/

/-- `get_collection_name(client_id, sub_client_id)`. -/
def getCollectionName (client_id : String) (sub_client_id : Option String) : String :=
  match sub_client_id with
  | some s =>
      if s == "" then "client_" ++ client_id
      else "client_" ++ client_id ++ "_sub_" ++ s
  | none => "client_" ++ client_id

/-- `store_document_chunks`: every chunk lands in the collection named by
`get_collection_name` for the given scope. -/
def storeDocumentChunks (store : List (String × String)) (client_id : String)
    (sub_client_id : Option String) (chunks : List String) :
    List (String × String) :=
  store ++ chunks.map (fun c => (getCollectionName client_id sub_client_id, c))

/-- `search_knowledge_base`: a query for a scope reads exactly the documents
of that scope's collection. -/
def searchKnowledgeBase (store : List (String × String)) (client_id : String)
    (sub_client_id : Option String) : List String :=
  (store.filter (fun e => e.1 == getCollectionName client_id sub_client_id)).map
    (fun e => e.2)

/-! ## Helper lemmas -/

theorem rfindDot_lower {text : List Char} {lo hi i : Nat}
    (h : rfindDot text lo hi = some i) : lo ≤ i := by
  unfold rfindDot at h
  have hmem := List.mem_of_mem_getLast? h
  have hp := (List.mem_filter.mp hmem).2
  simp only [Bool.and_eq_true, decide_eq_true_eq] at hp
  exact hp.1

theorem chunkEnd_lower (text : List Char) (start : Nat) :
    start + 901 ≤ chunkEnd text start := by
  unfold chunkEnd
  split
  · split
    · next se hse =>
      have := rfindDot_lower hse
      split <;> omega
    · omega
  · omega

theorem dropWhile_eq_self_of {p : Char → Bool} {l : List Char}
    (h : ∀ c ∈ l, p c = false) : l.dropWhile p = l := by
  cases l with
  | nil => rfl
  | cons a t => simp [List.dropWhile, h a (by simp)]

theorem pyStrip_eq_self {s : List Char} (h : ∀ c ∈ s, isPySpace c = false) :
    pyStrip s = s := by
  unfold pyStrip
  rw [dropWhile_eq_self_of h]
  rw [dropWhile_eq_self_of (fun c hc => h c (List.mem_reverse.mp hc))]
  exact List.reverse_reverse s

theorem sumLen_cons (x : List Char) (l : List (List Char)) :
    sumLen (x :: l) = x.length + sumLen l := by
  simp [sumLen]

theorem chunkTextAux_covers (text : List Char)
    (hws : ∀ c ∈ text, isPySpace c = false) :
    ∀ fuel start, text.length ≤ start + fuel →
      text.length - start ≤ sumLen (chunkTextAux text fuel start) := by
  intro fuel
  induction fuel with
  | zero => intro start hfs; omega
  | succ f ih =>
    intro start hfs
    by_cases hlt : start < text.length
    · have he := chunkEnd_lower text start
      rw [chunkTextAux]
      simp only [hlt, if_true]
      generalize hE : chunkEnd text start = e at he ⊢
      have hslice : ∀ c ∈ (text.drop start).take (e - start), isPySpace c = false :=
        fun c hc => hws c (List.mem_of_mem_drop (List.mem_of_mem_take hc))
      have hstripped : pyStrip ((text.drop start).take (e - start))
          = (text.drop start).take (e - start) := pyStrip_eq_self hslice
      rw [hstripped]
      have hlen : ((text.drop start).take (e - start)).length
          = min (e - start) (text.length - start) := by
        rw [List.length_take, List.length_drop]
      have hne : ((text.drop start).take (e - start)).isEmpty = false := by
        cases hz : ((text.drop start).take (e - start)).isEmpty
        · rfl
        · exfalso
          rw [List.isEmpty_iff] at hz
          have := congrArg List.length hz
          rw [hlen] at this
          simp at this
          omega
      rw [if_neg (by simp [hne])]
      have hrec := ih (e - 200) (by omega)
      rw [sumLen_cons, hlen]
      omega
    · omega

/-! ## Claim theorems -/

/-- **C6, counterexample.** The claim "for every non-empty input text, the
chunks' total character count is at least the length of the original text"
fails: on an input of 1000 space characters, `chunk_text` strips every
window to the empty string and returns no chunks at all, so the total is 0
while the original has 1000 characters. -/
theorem chunkText_strip_drops_whitespace :
    chunkText (List.replicate 1000 ' ') = []
    ∧ sumLen (chunkText (List.replicate 1000 ' ')) = 0
    ∧ (List.replicate 1000 ' ').length = 1000 := by
  have h : chunkText (List.replicate 1000 ' ') = [] := by decide
  exact ⟨h, by rw [h]; rfl, by simp⟩

/-- **C6, amended.** For every input text none of whose characters is
whitespace, the 1000/200 chunking returns chunks whose total character count
is at least the length of the original text; in general each kept chunk is
whitespace-stripped first, so whitespace-only windows are dropped and the
inequality can fail. -/
theorem chunkText_covers (text : List Char)
    (h : ∀ c ∈ text, isPySpace c = false) :
    text.length ≤ sumLen (chunkText text) := by
  unfold chunkText
  split
  · next hemp => simp_all [List.isEmpty_iff]
  · split
    · next hshort => simp [sumLen]
    · have := chunkTextAux_covers text h text.length 0 (by omega)
      omega

/-- Witness for `chunkText_covers` at the concrete whitespace-free input
`"abc"`. -/
theorem chunkText_covers_witness :
    (['a', 'b', 'c'] : List Char).length ≤ sumLen (chunkText ['a', 'b', 'c']) :=
  chunkText_covers ['a', 'b', 'c'] (by decide)

/-- **C1, counterexample.** The claim "once the polling loop has started, the
session status is always one of `recording`, `completed`, `failed`" fails:
when a poll reports the provider's terminal code `"done"`, the loop writes
that raw code into the session, so the final status is `"done"`, which is
none of the three. -/
theorem monitor_status_outside_spec_set :
    (runMonitor ⟨.jstr "recording", false, none, []⟩
        [some (.jstr "done")]).1.status = .jstr "done"
    ∧ JVal.jstr "done" ≠ .jstr "recording"
    ∧ JVal.jstr "done" ≠ .jstr "completed"
    ∧ JVal.jstr "done" ≠ .jstr "failed" := by
  refine ⟨rfl, ?_, ?_, ?_⟩ <;> simp

/-- **C1, amended.** Once the monitor loop starts, the session status tracks
the raw provider codes (which need not lie in the spec's three-element set);
the loop stops at the first terminal observation, after which the status is
either a raw done-equivalent code (`done`/`completed`/`finished`) or the
normalized `failed`, and later polls cause no further status change. -/
theorem monitor_terminal_spec (md md' : MeetingData)
    (pre post : List (Option JVal))
    (h : runMonitor md pre = (md', true)) :
    runMonitor md (pre ++ post) = (md', true)
    ∧ (doneStatus md'.status = true ∨ md'.status = .jstr "failed") := by
  induction pre generalizing md with
  | nil => simp [runMonitor] at h
  | cons p rest ih =>
    cases p with
    | none =>
      rw [List.cons_append, runMonitor]
      rw [runMonitor] at h
      exact ih md h
    | some s =>
      rw [List.cons_append, runMonitor]
      rw [runMonitor] at h
      by_cases hd : doneStatus s
      · simp only [hd, if_true] at h ⊢
        obtain ⟨h1, -⟩ := Prod.mk.injEq .. ▸ h
        refine ⟨h, Or.inl ?_⟩
        rw [← h1]
        exact hd
      · by_cases hf : failStatus s
        · simp only [hd, hf, if_true, if_false] at h ⊢
          obtain ⟨h1, -⟩ := Prod.mk.injEq .. ▸ h
          refine ⟨h, Or.inr ?_⟩
          rw [← h1]
        · simp only [hd, hf, if_false] at h ⊢
          exact ih _ h

/-- Witness for `monitor_terminal_spec`: a loop that observes `"done"` stops
there, keeps the raw status, and ignores a later poll. -/
theorem monitor_terminal_spec_witness :
    runMonitor ⟨.jstr "recording", false, none, []⟩
        ([some (.jstr "done")] ++ [some (.jstr "error")])
      = (⟨.jstr "done", false, none, []⟩, true)
    ∧ (doneStatus (MeetingData.mk (.jstr "done") false none []).status = true
       ∨ (MeetingData.mk (.jstr "done") false none []).status = .jstr "failed") :=
  monitor_terminal_spec ⟨.jstr "recording", false, none, []⟩
    ⟨.jstr "done", false, none, []⟩ [some (.jstr "done")]
    [some (.jstr "error")] rfl

/-- Raw bot data of the spec's Scenario C: the job's first recording carries
an embedded transcript string `"hello world"`. -/
def scenarioCData : JVal :=
  .jobj [("recordings", .jarr [.jobj [("transcript", .jstr "hello world")]])]

/-- **C2, counterexample.** The claim "whenever the primary transcript path
is unusable — either no transcript URL exists, or downloading fails — the
fallback path is used" fails on its second disjunct: with a transcript URL
present but its download failing (the spec's Scenario C), the routine
aborts with no transcript even though the fallback extractor would have
found `"hello world"` in the raw job data. -/
theorem download_failure_skips_fallback :
    acquireTranscript (.jstr "https://api.recall.ai/transcript") (fun _ => none)
        scenarioCData = none
    ∧ extractTranscriptFromBotData scenarioCData = some (.jstr "hello world") :=
  ⟨rfl, rfl⟩

/-- **C2, amended.** The fallback path is consulted only when no (truthy)
transcript URL exists at all; when a URL is present and its download fails,
processing aborts without the fallback.  The fallback itself scans the raw
job data's recordings in order, looking first at a recording's top-level
`transcript` field (a string, or an object's truthy `text` else `content`
entry) and then at its media-shortcut metadata, stopping at the first
non-empty result. -/
theorem fallback_only_when_no_url (url : JVal) (download : JVal → Option String)
    (bot_data : JVal) (hurl : url.truthy = false) :
    acquireTranscript url download bot_data = extractTranscriptFromBotData bot_data
    ∧ ∀ (s : String) (fields : List (String × JVal)) (rest : List JVal),
        ¬ s = "" →
        List.lookup "transcript" fields = some (.jstr s) →
        extractTranscriptFromBotData
            (.jobj [("recordings", .jarr (.jobj fields :: rest))])
          = some (.jstr s) := by
  constructor
  · simp [acquireTranscript, hurl]
  · intro s fields rest hs hf
    simp [extractTranscriptFromBotData, pyGet, scanRecordings, scanRecording, hf,
      JVal.truthy, hs]

/-- Witness for `fallback_only_when_no_url`: with no transcript URL
(Python `None`), acquisition is exactly the fallback extraction, which on
Scenario C's data returns `"hello world"`. -/
theorem fallback_only_when_no_url_witness :
    acquireTranscript .jnull (fun _ => none) scenarioCData
        = extractTranscriptFromBotData scenarioCData
    ∧ extractTranscriptFromBotData scenarioCData = some (.jstr "hello world") :=
  ⟨(fallback_only_when_no_url .jnull (fun _ => none) scenarioCData rfl).1,
   (fallback_only_when_no_url .jnull (fun _ => none) scenarioCData rfl).2
     "hello world" [("transcript", .jstr "hello world")] [] (by decide) rfl⟩

/-- **C3, counterexample.** The claim "all three artifact kinds — summary,
action items, and follow-up email — are attempted" fails for a meeting with
an empty attendee list: the follow-up email generation is guarded by
`if attendees:` and is skipped entirely, even though the generator would
have succeeded. -/
theorem email_skipped_without_attendees :
    (generateMeetingAIContent [] (fun _ => ⟨true, "ok"⟩)).map Prod.fst
        = [Kind.summary, Kind.action_items]
    ∧ Kind.follow_up_email ∉
        (generateMeetingAIContent [] (fun _ => ⟨true, "ok"⟩)).map Prod.fst := by
  exact ⟨rfl, by decide⟩

/-- **C3, amended.** The summary and the action items are always attempted;
the follow-up email is attempted only when the attendee list is non-empty.
Each attempt's success or failure is independent: changing the generator's
outcome for the follow-up email (for example making it fail) does not affect
which summary or action-items artifacts are generated and persisted. -/
theorem generation_independent (att : List String) (gen gen' : Kind → GenResult)
    (primaryOk directOk : Kind → Bool)
    (hs : gen Kind.summary = gen' Kind.summary)
    (ha : gen Kind.action_items = gen' Kind.action_items) :
    (generateMeetingAIContent att gen).map Prod.fst
        = [Kind.summary, Kind.action_items]
          ++ (if att.isEmpty then [] else [Kind.follow_up_email])
    ∧ (storeMeetingResults (generateMeetingAIContent att gen) primaryOk directOk).filter
          (fun kt => !(kt.1 == Kind.follow_up_email))
      = (storeMeetingResults (generateMeetingAIContent att gen') primaryOk directOk).filter
          (fun kt => !(kt.1 == Kind.follow_up_email)) := by
  constructor
  · cases att <;> simp [generateMeetingAIContent]
  · cases att with
    | nil => simp [generateMeetingAIContent, storeMeetingResults, hs, ha]
    | cons a as =>
      have expand : ∀ g : Kind → GenResult,
          storeMeetingResults (generateMeetingAIContent (a :: as) g)
              primaryOk directOk
            = storeMeetingResults
                [(Kind.summary, g Kind.summary), (Kind.action_items, g Kind.action_items)]
                primaryOk directOk
              ++ storeMeetingResults
                [(Kind.follow_up_email, g Kind.follow_up_email)]
                primaryOk directOk := by
        intro g
        simp only [generateMeetingAIContent, List.isEmpty_cons, Bool.false_eq_true,
          if_false, storeMeetingResults, List.filterMap_append]
      have kill : ∀ g : Kind → GenResult,
          (storeMeetingResults [(Kind.follow_up_email, g Kind.follow_up_email)]
              primaryOk directOk).filter
            (fun kt => !(kt.1 == Kind.follow_up_email)) = [] := by
        intro g
        simp only [storeMeetingResults, List.filterMap]
        split_ifs <;> simp
      rw [expand gen, expand gen', List.filter_append, List.filter_append,
        hs, ha, kill gen, kill gen']

/-- A generator outcome map failing only for the follow-up email (the spec's
Scenario D). -/
def genFailEmail : Kind → GenResult
  | Kind.follow_up_email => ⟨false, ""⟩
  | _ => ⟨true, "ok"⟩

/-- A generator outcome map succeeding for every kind. -/
def genAllOk : Kind → GenResult := fun _ => ⟨true, "ok"⟩

/-- Witness for `generation_independent` at Scenario D's shape: one
attendee, the email generation failing in one run and succeeding in the
other; summary and action items are attempted and persisted identically. -/
theorem generation_independent_witness :
    (generateMeetingAIContent ["alice"] genFailEmail).map Prod.fst
        = [Kind.summary, Kind.action_items]
          ++ (if (["alice"] : List String).isEmpty then [] else [Kind.follow_up_email])
    ∧ (storeMeetingResults (generateMeetingAIContent ["alice"] genFailEmail)
          (fun _ => true) (fun _ => false)).filter
          (fun kt => !(kt.1 == Kind.follow_up_email))
      = (storeMeetingResults (generateMeetingAIContent ["alice"] genAllOk)
          (fun _ => true) (fun _ => false)).filter
          (fun kt => !(kt.1 == Kind.follow_up_email)) :=
  generation_independent ["alice"] genFailEmail genAllOk
    (fun _ => true) (fun _ => false) rfl rfl

/-- A download-URLs success result whose transcript URL is Python `None` and
whose raw data holds no recordings. -/
def dlNoTranscript : DlResult :=
  { bot_id := "bot-1", video_url := .jnull, audio_url := .jnull,
    transcript_url := .jnull, chat_messages_url := .jnull,
    status := .jstr "done", data := .jobj [("recordings", .jarr [])] }

/-- **C4.** If transcript acquisition fails (neither the primary download
nor the fallback extraction yields text), the processing routine aborts
atomically: the session's `processed` flag stays `false` and no artifact is
stored — generation and persistence never run. -/
theorem transcript_failure_aborts (md : MeetingData) (dl : DlResult)
    (download : JVal → Option String) (gen : Kind → GenResult)
    (primaryOk directOk : Kind → Bool) (now : Nat)
    (hp : md.processed = false)
    (h : acquireTranscript dl.transcript_url download dl.data = none) :
    (processCompletedMeeting md (some dl) download gen primaryOk directOk now).1.processed
        = false
    ∧ (processCompletedMeeting md (some dl) download gen primaryOk directOk now).2
        = [] := by
  simp [processCompletedMeeting, h, hp]

/-- Witness for `transcript_failure_aborts`: no transcript URL and no
embedded transcript — the session stays unprocessed and nothing is stored. -/
theorem transcript_failure_aborts_witness :
    (processCompletedMeeting ⟨.jstr "done", false, none, ["alice"]⟩
        (some dlNoTranscript) (fun _ => none) genAllOk
        (fun _ => true) (fun _ => true) 7).1.processed = false
    ∧ (processCompletedMeeting ⟨.jstr "done", false, none, ["alice"]⟩
        (some dlNoTranscript) (fun _ => none) genAllOk
        (fun _ => true) (fun _ => true) 7).2 = [] :=
  transcript_failure_aborts ⟨.jstr "done", false, none, ["alice"]⟩ dlNoTranscript
    (fun _ => none) genAllOk (fun _ => true) (fun _ => true) 7 rfl rfl

/-- A download-URLs success result carrying a live transcript URL. -/
def dlWithTranscript : DlResult :=
  { bot_id := "bot-1", video_url := .jstr "https://v", audio_url := .jstr "https://v",
    transcript_url := .jstr "https://t", chat_messages_url := .jnull,
    status := .jstr "done", data := .jobj [("recordings", .jarr [])] }

/-- **C5.** Whenever the processing routine gets past transcript
acquisition, it runs generation and persistence to completion (both swallow
their own per-kind failures) and then marks the session `processed = true`
with `processed_at` set — regardless of how many of the artifact
generations or persistences succeeded, including none. -/
theorem processing_marks_processed (md : MeetingData) (dl : DlResult)
    (download : JVal → Option String) (gen : Kind → GenResult)
    (primaryOk directOk : Kind → Bool) (now : Nat) (v : JVal)
    (h : acquireTranscript dl.transcript_url download dl.data = some v) :
    (processCompletedMeeting md (some dl) download gen primaryOk directOk now).1.processed
        = true
    ∧ (processCompletedMeeting md (some dl) download gen primaryOk directOk now).1.processed_at
        = some now := by
  simp [processCompletedMeeting, h]

/-- Witness for `processing_marks_processed`: every generation fails and
every storage path rejects, yet the session is marked processed with a
timestamp. -/
theorem processing_marks_processed_witness :
    (processCompletedMeeting ⟨.jstr "done", false, none, ["alice"]⟩
        (some dlWithTranscript) (fun _ => some "hi there")
        (fun _ => ⟨false, ""⟩) (fun _ => false) (fun _ => false) 7).1.processed = true
    ∧ (processCompletedMeeting ⟨.jstr "done", false, none, ["alice"]⟩
        (some dlWithTranscript) (fun _ => some "hi there")
        (fun _ => ⟨false, ""⟩) (fun _ => false) (fun _ => false) 7).1.processed_at
        = some 7 :=
  processing_marks_processed ⟨.jstr "done", false, none, ["alice"]⟩ dlWithTranscript
    (fun _ => some "hi there") (fun _ => ⟨false, ""⟩) (fun _ => false)
    (fun _ => false) 7 (.jstr "hi there") rfl

/-- **C7, counterexample.** The claim "for every pair of distinct
`(organization_id, sub_unit_id)` scopes, chunks ingested under one scope are
never returned by a query under the other, for all choices of identifier
strings" fails: the collection name is built by plain concatenation, so the
distinct scopes `("a_sub_b", ∅)` and `("a", "b")` map to the same collection
`client_a_sub_b`, and a chunk stored under the first is returned to a query
under the second. -/
theorem scope_collision :
    getCollectionName "a_sub_b" none = getCollectionName "a" (some "b")
    ∧ searchKnowledgeBase (storeDocumentChunks [] "a_sub_b" none ["secret"])
        "a" (some "b") = ["secret"] :=
  ⟨rfl, rfl⟩

/-- **C7, amended.** Scope isolation holds exactly up to collection-name
collisions: whenever two scopes' generated collection names differ, chunks
ingested under one scope are invisible to queries under the other; but the
name mapping is not injective over arbitrary identifier strings (see the
collision of `("a_sub_b", ∅)` with `("a", "b")`), so the isolation is not
unconditional. -/
theorem scope_isolation (store : List (String × String))
    (c1 c2 : String) (s1 s2 : Option String) (chunks : List String)
    (h : ¬ getCollectionName c1 s1 = getCollectionName c2 s2) :
    searchKnowledgeBase (storeDocumentChunks store c1 s1 chunks) c2 s2
      = searchKnowledgeBase store c2 s2 := by
  unfold searchKnowledgeBase storeDocumentChunks
  rw [List.filter_append]
  have hkill : (chunks.map (fun c => (getCollectionName c1 s1, c))).filter
      (fun e => e.1 == getCollectionName c2 s2) = [] := by
    induction chunks with
    | nil => rfl
    | cons c cs ih =>
      simp only [List.map_cons, List.filter_cons]
      rw [if_neg (by simpa using h)]
      exact ih
  rw [hkill, List.append_nil]

/-- Witness for `scope_isolation`: two scopes with different collection
names — a chunk stored for organization `a` is invisible to organization
`b`'s query. -/
theorem scope_isolation_witness :
    searchKnowledgeBase (storeDocumentChunks [] "a" none ["doc"]) "b" none
      = searchKnowledgeBase [] "b" none :=
  scope_isolation [] "a" "b" none none ["doc"] (by decide)

/-- **C8.** A successful status poll reports the `code` of the last entry of
the job's status-change history; with an empty history the status is
inferred as `done` when the job data already contains a recording and
`waiting_to_join` otherwise. -/
theorem poll_status_spec (changes recs : List JVal)
    (fields : List (String × JVal)) (c : JVal)
    (h1 : changes.getLast? = some (.jobj fields))
    (h2 : List.lookup "code" fields = some c) :
    getBotStatusCode changes recs = some c
    ∧ getBotStatusCode [] recs
        = some (if recs.isEmpty then .jstr "waiting_to_join" else .jstr "done") := by
  constructor
  · simp [getBotStatusCode, h1, h2]
  · simp only [getBotStatusCode, List.getLast?_nil]
    split <;> rfl

/-- Witness for `poll_status_spec`: a one-entry history whose code is
`in_call_recording`, plus the two empty-history inferences. -/
theorem poll_status_spec_witness :
    getBotStatusCode [.jobj [("code", .jstr "in_call_recording")]] []
        = some (.jstr "in_call_recording")
    ∧ getBotStatusCode [] ([] : List JVal)
        = some (if ([] : List JVal).isEmpty then .jstr "waiting_to_join"
                else .jstr "done") :=
  poll_status_spec [.jobj [("code", .jstr "in_call_recording")]] []
    [("code", .jstr "in_call_recording")] (.jstr "in_call_recording") rfl rfl

/-- **C9.** The raw-job-data cache is an instance field not keyed by job id:
once a fetch for job `j1` has populated `self.bot_data`, a later
`get_bot_data` call without `force_refresh` — even for a different job id
`j2` and even with a different network behaviour — returns the cached data
of `j1` unchanged. -/
theorem raw_data_cache_not_keyed (st0 st1 : BotClient) (j1 j2 : String)
    (d : JVal) (fetch fetch2 : String → Option JVal)
    (h0 : st0.bot_data = none) (h1 : ¬ j1 = "") (h2 : ¬ j2 = "")
    (_hne : ¬ j2 = j1)
    (hfirst : getBotData st0 (some j1) false fetch = (some d, st1))
    (ht : d.truthy = true) :
    getBotData st1 (some j2) false fetch2 = (some d, st1) := by
  have hres1 : resolveBotId st0 (some j1) = some j1 := by
    simp [resolveBotId, truthyStr, h1]
  simp only [getBotData, hres1, h0] at hfirst
  cases hf : fetch j1 with
  | none => rw [hf] at hfirst; simp at hfirst
  | some d' =>
    rw [hf] at hfirst
    obtain ⟨hd, hst⟩ := Prod.mk.injEq .. ▸ hfirst
    obtain rfl : d' = d := by injection hd
    subst hst
    have hres2 : resolveBotId { bot_id := st0.bot_id, bot_data := some d' }
        (some j2) = some j2 := by
      simp [resolveBotId, truthyStr, h2]
    simp only [getBotData, hres2, ht]
    simp

/-- A cached raw-job payload used by the cache witnesses. -/
def cachedJobData : JVal := .jobj [("recordings", .jarr [.jstr "r"])]

/-- Witness for `raw_data_cache_not_keyed`: after caching job `a`'s data,
a call for job `b` (whose fetch would fail) still returns `a`'s data. -/
theorem raw_data_cache_not_keyed_witness :
    getBotData ⟨none, some cachedJobData⟩ (some "b") false (fun _ => none)
      = (some cachedJobData, ⟨none, some cachedJobData⟩) :=
  raw_data_cache_not_keyed ⟨none, none⟩ ⟨none, some cachedJobData⟩ "a" "b"
    cachedJobData (fun _ => some cachedJobData) (fun _ => none)
    rfl (by decide) (by decide) (by decide) rfl rfl

/-- **C10.** Every successful `get_download_urls` result has its `audio_url`
equal to its `video_url` (the client never produces a distinct audio URL)
and its `chat_messages_url` equal to `None`. -/
theorem download_urls_audio_eq_video (st st' : BotClient) (bidArg : Option String)
    (fetch : String → Option JVal) (r : DlResult)
    (h : getDownloadUrls st bidArg fetch = (some r, st')) :
    r.audio_url = r.video_url ∧ r.chat_messages_url = .jnull := by
  unfold getDownloadUrls at h
  repeat' split at h
  all_goals simp_all
  obtain ⟨hr, -⟩ := h
  rw [← hr]
  exact ⟨rfl, rfl⟩

/-- Witness for `download_urls_audio_eq_video`: a fresh fetch returning a
recording-free payload produces a success result with `audio_url = video_url`
and no chat-messages URL. -/
theorem download_urls_audio_eq_video_witness :
    (DlResult.mk "b1" .jnull .jnull .jnull .jnull (.jstr "unknown") (.jobj [])).audio_url
        = (DlResult.mk "b1" .jnull .jnull .jnull .jnull (.jstr "unknown") (.jobj [])).video_url
    ∧ (DlResult.mk "b1" .jnull .jnull .jnull .jnull (.jstr "unknown") (.jobj [])).chat_messages_url
        = .jnull :=
  download_urls_audio_eq_video ⟨some "b1", none⟩ ⟨some "b1", some (.jobj [])⟩
    none (fun _ => some (.jobj []))
    (DlResult.mk "b1" .jnull .jnull .jnull .jnull (.jstr "unknown") (.jobj []))
    rfl

end LemurAI
